import Mathlib

/-!
Shallow embedding of the querio-api orchestration layer (FastAPI + langchain
glue): the document registry, chat-session registry and vector-store
orchestrator from `src/api/services.py`, the pure pipeline functions from
`src/vector_store.py` and `src/rag_pipeline.py`, and the route handlers from
`src/api/routes/{documents,search,system}.py`.

Modelling conventions:
- Third-party calls (Chroma construction, similarity search, the Gemini LLM,
  PDF loading and text splitting) are oracles collected in an `Env` record;
  each oracle returns `Except String _`, the error being the raised
  exception's message.
- Python `dict`s become insertion-ordered association lists with unique keys
  (`dictInsert` overwrites in place, like `d[k] = v`).
- `datetime.utcnow()` becomes an explicit `now : Nat` argument; `uuid.uuid4()`
  becomes an explicit fresh-identifier argument.
- Raised `HTTPException`s become `Except HttpError _` results; services that
  mutate state return the new state explicitly.
-/

set_option autoImplicit false
set_option linter.unusedVariables false

namespace Querio

/-- Insertion-ordered association-list insert with Python `dict` semantics:
`d[k] = v` overwrites in place when the key exists, otherwise appends. -/
def dictInsert {α : Type} (k : String) (v : α) :
    List (String × α) → List (String × α)
  | [] => [(k, v)]
  | (k', v') :: rest =>
    if k' = k then (k, v) :: rest else (k', v') :: dictInsert k v rest

/-- Python `d.get(k)` on an association list. -/
def dictLookup {α : Type} (k : String) : List (String × α) → Option α
  | [] => none
  | (k', v) :: rest => if k' = k then some v else dictLookup k rest

/-- Python `del d[k]` on an association list (keys are unique, so removing
the first occurrence removes the entry). -/
def dictErase {α : Type} (k : String) : List (String × α) → List (String × α)
  | [] => []
  | (k', v) :: rest => if k' = k then rest else (k', v) :: dictErase k rest

/-- A retrieved document as returned by `Chroma.similarity_search`
(langchain `Document`): page content plus string metadata. -/
structure RDoc where
  page_content : String
  metadata : List (String × String)
deriving Repr, DecidableEq

/-- The opaque Chroma vector-store handle, identified by the chunk list it
was built from. -/
structure VectorDB where
  chunks : List String
deriving Repr, DecidableEq

/-- Oracles for the external libraries used by the pipeline:
`fromDocuments` is `Chroma.from_documents` (with the HuggingFace embedding
model), `similaritySearch` is `db.similarity_search(query, k)`,
`generateContent` is the Gemini `generate_content(prompt).text` round trip,
`loadPdfs` is `pdf_handler.load_pdfs` on the configured PDF folder and
`splitText` is `text_splitter.split_text`. An `Except.error` models the
call raising an exception with that message. -/
structure Env where
  fromDocuments : List String → Except String VectorDB
  similaritySearch : VectorDB → String → Nat → Except String (List RDoc)
  generateContent : String → Except String String
  loadPdfs : Except String String
  splitText : String → Except String (List String)

/-- `src/vector_store.py::create_vectorstore(chunks, persist_dir)`:
raises `ValueError("No text chunks provided.")` on an empty chunk list,
otherwise builds the store, wrapping any construction failure in
`RuntimeError(f"Vector store creation failed: {e}")`. -/
def create_vectorstore (env : Env) (chunks : List String) : Except String VectorDB :=
  if chunks.isEmpty then
    .error "No text chunks provided."
  else
    match env.fromDocuments chunks with
    | .ok db => .ok db
    | .error e => .error ("Vector store creation failed: " ++ e)

/-- `src/rag_pipeline.py::answer_query(db, query)`: retrieves the 3 nearest
chunks (`k=3` is hard-coded at the `similarity_search` call), joins their
text with `"\n"`, builds the fixed prompt template and forwards it to the
model; any failure is wrapped as `RuntimeError(f"LLM query failed: {e}")`. -/
def answer_query (env : Env) (db : VectorDB) (query : String) : Except String String :=
  match env.similaritySearch db query 3 with
  | .error e => .error ("LLM query failed: " ++ e)
  | .ok docs =>
    let context := String.intercalate "\n" (docs.map (fun d => d.page_content))
    let prompt := "Answer based on the context below:\n\n" ++ context ++ "\n\nQuery: " ++ query
    match env.generateContent prompt with
    | .error e => .error ("LLM query failed: " ++ e)
    | .ok text => .ok text

/-- State of `VectorStoreService`: the single live index handle,
`None` when nothing has been loaded. -/
structure VectorStoreState where
  vectordb : Option VectorDB
deriving Repr, DecidableEq

/-- Errors observable from `VectorStoreService.query/search`:
the service's own `ValueError("Vector store not initialized")`, or a
propagated/wrapped exception from the pipeline with its message. -/
inductive VError where
  | notInitialized
  | runtime (msg : String)
deriving Repr, DecidableEq

/-- `str(e)` for a `VError`, as interpolated into HTTP error details. -/
def VError.str : VError → String
  | .notInitialized => "Vector store not initialized"
  | .runtime m => m

/-- `VectorStoreService.rebuild(chunks)`: replaces the live handle with a
brand-new store on success and returns `True`; returns `False` on any
`create_vectorstore` exception, leaving `self.vectordb` untouched. -/
def VectorStoreService.rebuild (env : Env) (chunks : List String)
    (s : VectorStoreState) : Bool × VectorStoreState :=
  match create_vectorstore env chunks with
  | .ok db => (true, { vectordb := some db })
  | .error _ => (false, s)

/-- `VectorStoreService.query(query_text, k=3)`: raises
`ValueError("Vector store not initialized")` when no handle is loaded,
otherwise returns `answer_query(self.vectordb, query_text)`. The `k`
parameter appears in the source signature but is not forwarded. -/
def VectorStoreService.query (env : Env) (s : VectorStoreState)
    (query_text : String) (k : Nat) : Except VError String :=
  match s.vectordb with
  | none => .error .notInitialized
  | some db =>
    match answer_query env db query_text with
    | .ok a => .ok a
    | .error e => .error (.runtime e)

/-- One entry of `VectorStoreService.search`'s result list:
`{"content": doc.page_content, "metadata": doc.metadata}` (the optional
`score` field of the response model is never populated by the service). -/
structure SearchHit where
  content : String
  metadata : List (String × String)
deriving Repr, DecidableEq

/-- `VectorStoreService.search(query_text, k=5)`: raises
`ValueError("Vector store not initialized")` when no handle is loaded,
otherwise maps the raw `similarity_search(query_text, k=k)` hits to
content/metadata dicts; an exception from the library propagates. -/
def VectorStoreService.search (env : Env) (s : VectorStoreState)
    (query_text : String) (k : Nat) : Except VError (List SearchHit) :=
  match s.vectordb with
  | none => .error .notInitialized
  | some db =>
    match env.similaritySearch db query_text k with
    | .ok docs => .ok (docs.map (fun d => ⟨d.page_content, d.metadata⟩))
    | .error e => .error (.runtime e)

/-- One regular file under the Chroma persist directory, as seen by
`db_path.rglob('*')`: its byte size and its modification time. -/
structure FSFile where
  size : Nat
  mtime : Nat
deriving Repr, DecidableEq

/-- The on-disk state of the Chroma persist directory:
whether `db_path.exists()` and the regular files below it. -/
structure ChromaFS where
  db_path_exists : Bool
  files : List FSFile
deriving Repr, DecidableEq

/-- The dict built by `VectorStoreService.get_stats`. `db_size` is kept as
the total byte count (the source renders it as an `"{..} MB"` string). -/
structure VStats where
  total_chunks : Nat
  db_size : Nat
  last_updated : Option Nat
deriving Repr, DecidableEq

/-- Python's `max` over a list of values: raises (here: `none`) on an empty
sequence, which `get_stats` swallows with a bare `except`. -/
def pythonMax : List Nat → Option Nat
  | [] => none
  | x :: xs => some (xs.foldl max x)

/-- `VectorStoreService.get_stats()`: starts from
`{"total_chunks": 0, "db_size": 0, "last_updated": None}`; when the persist
directory exists it sums the file sizes and takes the max modification time
(the empty-`max` `ValueError` is swallowed, leaving `None`). The
`total_chunks` entry is never updated from the index. -/
def VectorStoreService.get_stats (fs : ChromaFS) : VStats :=
  let stats : VStats := { total_chunks := 0, db_size := 0, last_updated := none }
  if fs.db_path_exists then
    { stats with
      db_size := (fs.files.map (fun f => f.size)).sum,
      last_updated := pythonMax (fs.files.map (fun f => f.mtime)) }
  else
    stats

/-- Python `str.lower().endswith('.pdf')`, the validation used by the
upload routes, computed over the character list so it evaluates. -/
def endsWithPdfCI (filename : String) : Bool :=
  (filename.data.map Char.toLower).reverse.take 4 = ".pdf".data.reverse

/-- One document-registry record (`DocumentService._documents_metadata[id]`).
`page_count` is `none` when `fitz` failed to parse the uploaded bytes. -/
structure DocMeta where
  id : String
  filename : String
  file_size : Nat
  page_count : Option Nat
  uploaded_at : Nat
  processed : Bool
deriving Repr, DecidableEq

/-- State owned by `DocumentService`: the in-memory metadata dict plus the
names of the files it has written into the PDF folder. -/
structure DocState where
  docs : List (String × DocMeta)
  files_written : List String
deriving Repr, DecidableEq

/-- `DocumentService.upload_document(filename, content)`: writes the bytes
to `"{doc_id}.pdf"`, records fresh metadata with `processed=False` and
returns it. The fresh `uuid4` id, the byte count of `content`, the
(possibly failed) `fitz` page count and `utcnow` are explicit arguments. -/
def DocumentService.upload_document (doc_id filename : String)
    (content_size : Nat) (page_count : Option Nat) (now : Nat)
    (s : DocState) : DocMeta × DocState :=
  let m : DocMeta :=
    { id := doc_id, filename := filename, file_size := content_size,
      page_count := page_count, uploaded_at := now, processed := false }
  (m, { docs := dictInsert doc_id m s.docs,
        files_written := s.files_written ++ [doc_id ++ ".pdf"] })

/-- `DocumentService.list_documents()`: the dict's values in order. -/
def DocumentService.list_documents (s : DocState) : List DocMeta :=
  s.docs.map (fun p => p.2)

/-- `DocumentService.get_document(doc_id)`. -/
def DocumentService.get_document (doc_id : String) (s : DocState) : Option DocMeta :=
  dictLookup doc_id s.docs

/-- Sets `processed = True` on every record, as the loop in
`DocumentService.process_documents` does. -/
def markAllProcessed (l : List (String × DocMeta)) : List (String × DocMeta) :=
  l.map (fun p => (p.1, { p.2 with processed := true }))

/-- `DocumentService.process_documents()`: loads and splits the full PDF
folder (either step may raise, in which case nothing is marked), then flips
every record's `processed` flag to `True` and returns
`(len(self._documents_metadata), len(chunks))`. It never touches the
vector store. -/
def DocumentService.process_documents (env : Env) (s : DocState) :
    Except String ((Nat × Nat) × DocState) :=
  match env.loadPdfs with
  | .error e => .error e
  | .ok text =>
    match env.splitText text with
    | .error e => .error e
    | .ok chunks =>
      let s' : DocState := { s with docs := markAllProcessed s.docs }
      .ok ((s'.docs.length, chunks.length), s')

/-- A raised `fastapi.HTTPException`: status code and detail string. -/
structure HttpError where
  status : Nat
  detail : String
deriving Repr, DecidableEq

/-- Route `POST /api/documents/upload` (`routes/documents.py`): rejects a
filename whose lower-cased form does not end in `.pdf` with a 400 before
touching the registry; otherwise reads the body (`readBody` is the outcome
of `await file.read()`, whose failure the handler maps to a 500) and
delegates to `DocumentService.upload_document`. -/
def Documents.upload_document (filename : String)
    (readBody : Except String Nat) (doc_id : String) (page_count : Option Nat)
    (now : Nat) (s : DocState) : Except HttpError DocMeta × DocState :=
  if endsWithPdfCI filename = false then
    (.error ⟨400, "Only PDF files are allowed"⟩, s)
  else
    match readBody with
    | .error e => (.error ⟨500, "Upload failed: " ++ e⟩, s)
    | .ok content_size =>
      let r := DocumentService.upload_document doc_id filename content_size
        page_count now s
      (.ok r.1, r.2)

deriving instance DecidableEq for Except

/-- One file submitted to `POST /api/documents/bulk-upload`: its filename
and the outcome of `await file.read()` followed by
`document_service.upload_document` — the produced metadata, or the raised
exception's message. -/
structure UFile where
  filename : String
  outcome : Except String DocMeta
deriving Repr, DecidableEq

/-- The collection loop of `bulk_upload_documents`: files whose name fails
the `.pdf` check contribute `f"{filename}: Not a PDF file"` to `errors`,
files whose read/upload raises contribute `f"{filename}: {e}"`, successful
files contribute their metadata to `uploaded_docs`, order preserved. -/
def Documents.bulkCollect : List UFile → List DocMeta × List String
  | [] => ([], [])
  | f :: rest =>
    let acc := Documents.bulkCollect rest
    if endsWithPdfCI f.filename = false then
      (acc.1, (f.filename ++ ": Not a PDF file") :: acc.2)
    else
      match f.outcome with
      | .ok m => (m :: acc.1, acc.2)
      | .error e => (acc.1, (f.filename ++ ": " ++ e) :: acc.2)

/-- Route `POST /api/documents/bulk-upload`: raises a 500 only when there
are errors and no success at all; otherwise returns the successful
metadata records, silently dropping the failures. -/
def Documents.bulk_upload_documents (files : List UFile) :
    Except HttpError (List DocMeta) :=
  let acc := Documents.bulkCollect files
  if acc.2 ≠ [] ∧ acc.1 = [] then
    .error ⟨500, "All uploads failed: " ++ String.intercalate ", " acc.2⟩
  else
    .ok acc.1

/-- Body of a successful `POST /api/documents/process` response. -/
structure RebuildResponse where
  success : Bool
  message : String
  documents_processed : Nat
  chunks_created : Nat
deriving Repr, DecidableEq

/-- Route `POST /api/documents/process`: runs
`DocumentService.process_documents` (mutating the registry in place), 400s
when zero chunks resulted, re-loads and re-splits the PDF folder, then
calls `VectorStoreService.rebuild`; a `False` rebuild is a 500 with the
registry already mutated and the vector-store state as `rebuild` left it. -/
def Documents.process_documents (env : Env) (d : DocState)
    (v : VectorStoreState) :
    Except HttpError RebuildResponse × DocState × VectorStoreState :=
  match DocumentService.process_documents env d with
  | .error e => (.error ⟨500, "Processing failed: " ++ e⟩, d, v)
  | .ok ((doc_count, chunk_count), d') =>
    if chunk_count = 0 then
      (.error ⟨400, "No documents to process"⟩, d', v)
    else
      match env.loadPdfs with
      | .error e => (.error ⟨500, "Processing failed: " ++ e⟩, d', v)
      | .ok text =>
        match env.splitText text with
        | .error e => (.error ⟨500, "Processing failed: " ++ e⟩, d', v)
        | .ok chunks =>
          let r := VectorStoreService.rebuild env chunks v
          if r.1 then
            (.ok { success := true,
                   message := "Documents processed and vector store rebuilt successfully",
                   documents_processed := doc_count,
                   chunks_created := chunks.length }, d', r.2)
          else
            (.error ⟨500, "Failed to rebuild vector store"⟩, d', r.2)

/-- One chat message: `{"role": .., "content": .., "timestamp": utcnow()}`. -/
structure CMessage where
  role : String
  content : String
  timestamp : Nat
deriving Repr, DecidableEq

/-- One session record of `ChatSessionService._sessions`. -/
structure Session where
  session_id : String
  created_at : Nat
  updated_at : Nat
  messages : List CMessage
  message_count : Nat
deriving Repr, DecidableEq

/-- State owned by `ChatSessionService`: the in-memory session dict. -/
structure ChatState where
  sessions : List (String × Session)
deriving Repr, DecidableEq

/-- `ChatSessionService.create_session()`: stores a fresh record with empty
history and `message_count = 0`, both timestamps set to now, and returns
the id. The fresh `uuid4` id and `utcnow` are explicit arguments. -/
def ChatSessionService.create_session (session_id : String) (now : Nat)
    (s : ChatState) : String × ChatState :=
  let sess : Session :=
    { session_id := session_id, created_at := now, updated_at := now,
      messages := [], message_count := 0 }
  (session_id, { sessions := dictInsert session_id sess s.sessions })

/-- `ChatSessionService.get_session(session_id)`. -/
def ChatSessionService.get_session (session_id : String) (s : ChatState) :
    Option Session :=
  dictLookup session_id s.sessions

/-- One entry of `ChatSessionService.list_sessions()`: the summary dict
without the message bodies. -/
structure SessionSummary where
  session_id : String
  created_at : Nat
  updated_at : Nat
  message_count : Nat
deriving Repr, DecidableEq

/-- `ChatSessionService.list_sessions()`. -/
def ChatSessionService.list_sessions (s : ChatState) : List SessionSummary :=
  s.sessions.map (fun p =>
    { session_id := p.2.session_id, created_at := p.2.created_at,
      updated_at := p.2.updated_at, message_count := p.2.message_count })

/-- `ChatSessionService.add_message(session_id, role, content)`: returns
`False` without touching anything when the session is unknown; otherwise
appends the message, increments `message_count`, refreshes `updated_at`
and returns `True`. -/
def ChatSessionService.add_message (session_id role content : String)
    (now : Nat) (s : ChatState) : Bool × ChatState :=
  match dictLookup session_id s.sessions with
  | none => (false, s)
  | some sess =>
    let msg : CMessage := { role := role, content := content, timestamp := now }
    let sess' : Session :=
      { sess with messages := sess.messages ++ [msg],
                  message_count := sess.message_count + 1,
                  updated_at := now }
    (true, { sessions := dictInsert session_id sess' s.sessions })

/-- Result of `ChatSessionService.get_history(session_id)`. -/
structure ChatHistory where
  session_id : String
  messages : List CMessage
  created_at : Nat
  updated_at : Nat
deriving Repr, DecidableEq

/-- `ChatSessionService.get_history(session_id)`. -/
def ChatSessionService.get_history (session_id : String) (s : ChatState) :
    Option ChatHistory :=
  match dictLookup session_id s.sessions with
  | none => none
  | some sess =>
    some { session_id := session_id, messages := sess.messages,
           created_at := sess.created_at, updated_at := sess.updated_at }

/-- `ChatSessionService.delete_session(session_id)`. -/
def ChatSessionService.delete_session (session_id : String) (s : ChatState) :
    Bool × ChatState :=
  match dictLookup session_id s.sessions with
  | none => (false, s)
  | some _ => (true, { sessions := dictErase session_id s.sessions })

/-- Body of a successful search response (`SearchResponse` model). -/
structure SearchResponse where
  query : String
  results : List SearchHit
  total : Nat
deriving Repr, DecidableEq

/-- Route `POST /api/search` (`routes/search.py::search_documents`):
`vector_service.search(request.query, k=request.k)`, 500 with
`f"Search failed: {e}"` on any exception. -/
def Search.search_documents (env : Env) (v : VectorStoreState)
    (query : String) (k : Nat) : Except HttpError SearchResponse :=
  match VectorStoreService.search env v query k with
  | .ok results => .ok { query := query, results := results, total := results.length }
  | .error e => .error ⟨500, "Search failed: " ++ e.str⟩

/-- Route `POST /api/search/similar` (`routes/search.py::find_similar`):
`vector_service.search(request.query, k=request.k)`, 500 with
`f"Similarity search failed: {e}"` on any exception. -/
def Search.find_similar (env : Env) (v : VectorStoreState)
    (query : String) (k : Nat) : Except HttpError SearchResponse :=
  match VectorStoreService.search env v query k with
  | .ok results => .ok { query := query, results := results, total := results.length }
  | .error e => .error ⟨500, "Similarity search failed: " ++ e.str⟩

/-- Body of `GET /api/stats` (`StatsResponse` model); `vector_db_size` is
kept as the byte count summed by `get_stats`. -/
structure StatsResponse where
  total_documents : Nat
  total_chunks : Nat
  vector_db_size : Nat
  last_updated : Option Nat
deriving Repr, DecidableEq

/-- Route `GET /api/stats` (`routes/system.py::get_stats`): combines
`document_service.list_documents()` with `vector_service.get_stats()`. -/
def System.get_stats (d : DocState) (fs : ChromaFS) : StatsResponse :=
  let documents := DocumentService.list_documents d
  let vector_stats := VectorStoreService.get_stats fs
  { total_documents := documents.length,
    total_chunks := vector_stats.total_chunks,
    vector_db_size := vector_stats.db_size,
    last_updated := vector_stats.last_updated }

/-- A file that `bulk_upload_documents` counts as failed: wrong extension,
or a raised read/upload exception. -/
def Documents.fileFailed (f : UFile) : Bool :=
  if endsWithPdfCI f.filename = false then true
  else
    match f.outcome with
    | .ok _ => false
    | .error _ => true

/-- The metadata of the files `bulk_upload_documents` uploads, in order. -/
def Documents.bulkSuccesses (files : List UFile) : List DocMeta :=
  files.filterMap (fun f =>
    if endsWithPdfCI f.filename = false then none else f.outcome.toOption)

/-! ### Helper lemmas about the dictionary model and the loops -/

theorem dictLookup_dictInsert_self {α : Type} (k : String) (v : α)
    (l : List (String × α)) : dictLookup k (dictInsert k v l) = some v := by
  induction l with
  | nil => simp [dictInsert, dictLookup]
  | cons p rest ih =>
    obtain ⟨k', v'⟩ := p
    by_cases h : k' = k <;> simp [dictInsert, dictLookup, h, ih]

theorem mem_dictInsert {α : Type} {k : String} {v : α}
    {l : List (String × α)} {p : String × α} (hp : p ∈ dictInsert k v l) :
    p = (k, v) ∨ p ∈ l := by
  induction l with
  | nil => simpa [dictInsert] using hp
  | cons q rest ih =>
    obtain ⟨k', v'⟩ := q
    by_cases h : k' = k
    · subst h
      simp [dictInsert, List.mem_cons] at hp
      rcases hp with h1 | h1
      · exact Or.inl h1
      · exact Or.inr (List.mem_cons_of_mem _ h1)
    · simp only [dictInsert, if_neg h, List.mem_cons] at hp
      rcases hp with h1 | h1
      · exact Or.inr (by simp [h1])
      · rcases ih h1 with h2 | h2
        · exact Or.inl h2
        · exact Or.inr (List.mem_cons_of_mem _ h2)

theorem mem_dictErase {α : Type} {k : String} {l : List (String × α)}
    {p : String × α} (hp : p ∈ dictErase k l) : p ∈ l := by
  induction l with
  | nil => simp [dictErase] at hp
  | cons q rest ih =>
    obtain ⟨k', v'⟩ := q
    by_cases h : k' = k
    · simp only [dictErase, h, if_pos rfl] at hp
      exact List.mem_cons_of_mem _ hp
    · simp only [dictErase, if_neg h, List.mem_cons] at hp
      rcases hp with h1 | h1
      · simp [h1]
      · exact List.mem_cons_of_mem _ (ih h1)

theorem dictLookup_mem {α : Type} {k : String} {v : α}
    {l : List (String × α)} (h : dictLookup k l = some v) : (k, v) ∈ l := by
  induction l with
  | nil => simp [dictLookup] at h
  | cons q rest ih =>
    obtain ⟨k', v'⟩ := q
    by_cases hk : k' = k
    · subst hk
      simp [dictLookup] at h
      subst h
      exact List.mem_cons_self _ _
    · simp only [dictLookup, if_neg hk] at h
      exact List.mem_cons_of_mem _ (ih h)

theorem mem_markAllProcessed {l : List (String × DocMeta)}
    {p : String × DocMeta} (hp : p ∈ markAllProcessed l) :
    p.2.processed = true := by
  simp only [markAllProcessed, List.mem_map] at hp
  obtain ⟨q, -, rfl⟩ := hp
  rfl

theorem le_foldl_max_init (x : Nat) (xs : List Nat) : x ≤ xs.foldl max x := by
  induction xs generalizing x with
  | nil => simp
  | cons y ys ih => exact le_trans (le_max_left x y) (ih (max x y))

theorem mem_le_foldl_max (x : Nat) (xs : List Nat) :
    ∀ t ∈ xs, t ≤ xs.foldl max x := by
  induction xs generalizing x with
  | nil => simp
  | cons y ys ih =>
    intro t ht
    rw [List.mem_cons] at ht
    rcases ht with rfl | ht
    · exact le_trans (le_max_right x t) (le_foldl_max_init _ _)
    · exact ih _ t ht

theorem foldl_max_mem (x : Nat) (xs : List Nat) : xs.foldl max x ∈ x :: xs := by
  induction xs generalizing x with
  | nil => simp
  | cons y ys ih =>
    have h := ih (max x y)
    rw [List.mem_cons] at h
    rw [List.foldl_cons]
    rcases h with h | h
    · rw [h]
      rcases max_choice x y with h2 | h2 <;> rw [h2] <;> simp
    · simp [List.mem_cons, h]

theorem pythonMax_spec {l : List Nat} {m : Nat} (h : pythonMax l = some m) :
    m ∈ l ∧ ∀ t ∈ l, t ≤ m := by
  cases l with
  | nil => simp [pythonMax] at h
  | cons x xs =>
    simp only [pythonMax, Option.some.injEq] at h
    subst h
    refine ⟨foldl_max_mem x xs, ?_⟩
    intro t ht
    rw [List.mem_cons] at ht
    rcases ht with rfl | ht
    · exact le_foldl_max_init _ _
    · exact mem_le_foldl_max _ _ _ ht

theorem bulkCollect_fst (files : List UFile) :
    (Documents.bulkCollect files).1 = Documents.bulkSuccesses files := by
  induction files with
  | nil => rfl
  | cons f rest ih =>
    by_cases h : endsWithPdfCI f.filename = false
    · simp [Documents.bulkCollect, Documents.bulkSuccesses, h, ih,
        List.filterMap_cons]
    · cases ho : f.outcome <;>
        simp [Documents.bulkCollect, Documents.bulkSuccesses, h, ho, ih,
          List.filterMap_cons, Except.toOption]

theorem bulkCollect_length (files : List UFile) :
    (Documents.bulkCollect files).1.length +
      (Documents.bulkCollect files).2.length = files.length := by
  induction files with
  | nil => rfl
  | cons f rest ih =>
    by_cases h : endsWithPdfCI f.filename = false
    · simp [Documents.bulkCollect, h]
      omega
    · cases ho : f.outcome <;>
        · simp [Documents.bulkCollect, h, ho]
          omega

theorem bulkSuccesses_nil_iff (files : List UFile) :
    Documents.bulkSuccesses files = [] ↔
      ∀ f ∈ files, Documents.fileFailed f = true := by
  simp only [Documents.bulkSuccesses, List.filterMap_eq_nil_iff]
  constructor
  · intro h f hf
    have := h f hf
    by_cases hp : endsWithPdfCI f.filename = false
    · simp [Documents.fileFailed, hp]
    · cases ho : f.outcome
      · simp [Documents.fileFailed, hp, ho]
      · simp [hp, ho, Except.toOption] at this
  · intro h f hf
    have := h f hf
    by_cases hp : endsWithPdfCI f.filename = false
    · simp [hp]
    · cases ho : f.outcome
      · simp [hp, ho, Except.toOption]
      · simp [Documents.fileFailed, hp, ho] at this

/-! ### Claim theorems -/

/-- Fixture for C1: the search oracle returns exactly `k` hits with content
`"c"` and the model echoes its prompt, so the produced answer reveals how
many chunks were retrieved. -/
def C1Env : Env :=
  { fromDocuments := fun cs => .ok ⟨cs⟩,
    similaritySearch := fun _ _ k => .ok (List.replicate k ⟨"c", []⟩),
    generateContent := fun p => .ok p,
    loadPdfs := .ok "",
    splitText := fun _ => .ok [] }

/-- C1: the claim says `VectorStoreService.query` retrieves the top-k
nearest chunks for the caller-supplied `k`. It does not: the `k` argument
is dropped (`answer_query` hard-codes `k=3`), so the result is the same for
every `k`, and at `k = 5` the forwarded prompt contains the 3-chunk context
`"c\nc\nc"`, not the 5-chunk context `"c\nc\nc\nc\nc"` the claim requires.
The newline concatenation and the fixed prompt template themselves are as
claimed. -/
theorem C1_query_ignores_caller_k :
    (∀ k : Nat, VectorStoreService.query C1Env ⟨some ⟨["c"]⟩⟩ "q" k
      = VectorStoreService.query C1Env ⟨some ⟨["c"]⟩⟩ "q" 3) ∧
    VectorStoreService.query C1Env ⟨some ⟨["c"]⟩⟩ "q" 5
      = .ok "Answer based on the context below:\n\nc\nc\nc\n\nQuery: q" ∧
    VectorStoreService.query C1Env ⟨some ⟨["c"]⟩⟩ "q" 5
      ≠ .ok "Answer based on the context below:\n\nc\nc\nc\nc\nc\n\nQuery: q" :=
  ⟨fun _ => rfl, by decide, by decide⟩

/-- Fixture for C2: an environment whose store construction always raises. -/
def C2Env : Env :=
  { fromDocuments := fun _ => .error "embedding backend down",
    similaritySearch := fun db _ k => .ok (db.chunks.map (fun c => ⟨c, []⟩)),
    generateContent := fun p => .ok p,
    loadPdfs := .ok "",
    splitText := fun _ => .ok [] }

/-- C2: `rebuild` is a total `Bool`-returning operation (it never raises by
its very type here, mirroring the catch-all `except` in the source);
`rebuild([])` returns `false`, and whenever `rebuild` returns `false` the
previous state — and hence the previously loaded handle — is unchanged, so
`query` behaves exactly as before the failed rebuild. -/
theorem C2_rebuild_false_preserves_state :
    ∀ (env : Env) (s : VectorStoreState) (chunks : List String),
      VectorStoreService.rebuild env [] s = (false, s) ∧
      ((VectorStoreService.rebuild env chunks s).1 = false →
        (VectorStoreService.rebuild env chunks s).2 = s) ∧
      ((VectorStoreService.rebuild env chunks s).1 = false →
        ∀ (t : String) (k : Nat),
          VectorStoreService.query env (VectorStoreService.rebuild env chunks s).2 t k
            = VectorStoreService.query env s t k) := by
  intro env s chunks
  have hpres : (VectorStoreService.rebuild env chunks s).1 = false →
      (VectorStoreService.rebuild env chunks s).2 = s := by
    intro h
    cases hc : create_vectorstore env chunks with
    | ok db => simp [VectorStoreService.rebuild, hc] at h
    | error e => simp [VectorStoreService.rebuild, hc]
  refine ⟨rfl, hpres, ?_⟩
  intro h t k
  rw [hpres h]

/-- Witness for C2 at a concrete loaded state: the empty rebuild fails and
the old handle stays live and queryable. -/
theorem C2_rebuild_witness :
    VectorStoreService.rebuild C2Env [] ⟨some ⟨["old"]⟩⟩ = (false, ⟨some ⟨["old"]⟩⟩) ∧
    (VectorStoreService.rebuild C2Env [] ⟨some ⟨["old"]⟩⟩).2 = ⟨some ⟨["old"]⟩⟩ ∧
    VectorStoreService.query C2Env (VectorStoreService.rebuild C2Env [] ⟨some ⟨["old"]⟩⟩).2 "q" 3
      = VectorStoreService.query C2Env ⟨some ⟨["old"]⟩⟩ "q" 3 :=
  ⟨(C2_rebuild_false_preserves_state C2Env ⟨some ⟨["old"]⟩⟩ []).1,
   (C2_rebuild_false_preserves_state C2Env ⟨some ⟨["old"]⟩⟩ []).2.1 (by decide),
   (C2_rebuild_false_preserves_state C2Env ⟨some ⟨["old"]⟩⟩ []).2.2 (by decide) "q" 3⟩

/-- Fixture for C3: an environment whose store construction succeeds. -/
def C3Env : Env :=
  { fromDocuments := fun cs => .ok ⟨cs⟩,
    similaritySearch := fun db _ k => .ok (db.chunks.map (fun c => ⟨c, []⟩)),
    generateContent := fun p => .ok p,
    loadPdfs := .ok "",
    splitText := fun _ => .ok [] }

/-- Fixture for C3: a persist directory holding two files of sizes 10 and
20 bytes with modification times 5 and 7. -/
def C3FS : ChromaFS := ⟨true, [⟨10, 5⟩, ⟨20, 7⟩]⟩

/-- C3, counterexample: after a successful rebuild the live/persisted index
holds 2 chunks, yet `get_stats` reports `total_chunks = 0` — the chunk
count is never computed, so `stats()` does not return "the persisted
index's chunk count" as claimed. -/
theorem C3_stats_counterexample :
    (VectorStoreService.rebuild C3Env ["alpha", "beta"] ⟨none⟩).1 = true ∧
    ((VectorStoreService.rebuild C3Env ["alpha", "beta"] ⟨none⟩).2.vectordb.map
      (fun db => db.chunks.length)) = some 2 ∧
    (VectorStoreService.get_stats C3FS).total_chunks = 0 ∧
    (System.get_stats ⟨[], []⟩ C3FS).total_chunks = 0 ∧
    (0 : Nat) ≠ 2 := by
  refine ⟨by decide, by decide, by decide, by decide, by decide⟩

/-- C3, amended: `get_stats` reports a constant chunk count of 0 (never
derived from the index); the on-disk size is the sum of the sizes of the
files under the persist directory and the last-modified time is the
maximum of their modification times (absent when the directory is missing
or empty); `GET /api/stats` forwards that 0 as `total_chunks` and reports
the registry's record count as `total_documents`. -/
theorem C3_stats_amended :
    ∀ (d : DocState) (fs : ChromaFS),
      (VectorStoreService.get_stats fs).total_chunks = 0 ∧
      (System.get_stats d fs).total_chunks = 0 ∧
      (System.get_stats d fs).total_documents
        = (DocumentService.list_documents d).length ∧
      (fs.db_path_exists = true →
        (VectorStoreService.get_stats fs).db_size
          = (fs.files.map (fun f => f.size)).sum) ∧
      (fs.db_path_exists = false →
        VectorStoreService.get_stats fs = ⟨0, 0, none⟩) ∧
      (∀ m, (VectorStoreService.get_stats fs).last_updated = some m →
        m ∈ fs.files.map (fun f => f.mtime) ∧
          ∀ t ∈ fs.files.map (fun f => f.mtime), t ≤ m) := by
  intro d fs
  refine ⟨?_, ?_, rfl, ?_, ?_, ?_⟩
  · by_cases h : fs.db_path_exists <;> simp [VectorStoreService.get_stats, h]
  · by_cases h : fs.db_path_exists <;>
      simp [System.get_stats, VectorStoreService.get_stats, h]
  · intro h
    simp [VectorStoreService.get_stats, h]
  · intro h
    simp [VectorStoreService.get_stats, h]
  · intro m hm
    by_cases h : fs.db_path_exists
    · simp only [VectorStoreService.get_stats, h, if_pos] at hm
      exact pythonMax_spec hm
    · simp [VectorStoreService.get_stats, h] at hm

/-- Witness for C3's amended statement at the concrete directory `C3FS`:
chunk count 0, size 10 + 20 = 30, last-modified 7 dominating both files. -/
theorem C3_stats_amended_witness :
    (VectorStoreService.get_stats C3FS).total_chunks = 0 ∧
    (VectorStoreService.get_stats C3FS).db_size = 30 ∧
    (7 ∈ C3FS.files.map (fun f => f.mtime) ∧
      ∀ t ∈ C3FS.files.map (fun f => f.mtime), t ≤ 7) :=
  ⟨(C3_stats_amended ⟨[], []⟩ C3FS).1,
   ((C3_stats_amended ⟨[], []⟩ C3FS).2.2.2.1 rfl).trans (by decide),
   (C3_stats_amended ⟨[], []⟩ C3FS).2.2.2.2.2 7 (by decide)⟩

/-- C4: `query` and `search` produce the catchable
`ValueError("Vector store not initialized")` exactly when no index handle
is loaded (`vectordb` is `None`) — and, both being total functions into
`Except`, under no other condition; every other failure surfaces as a
distinct wrapped runtime error. -/
theorem C4_not_initialized_iff_no_handle :
    ∀ (env : Env) (s : VectorStoreState) (t : String) (k : Nat),
      (VectorStoreService.query env s t k = .error .notInitialized
        ↔ s.vectordb = none) ∧
      (VectorStoreService.search env s t k = .error .notInitialized
        ↔ s.vectordb = none) := by
  intro env s t k
  cases hdb : s.vectordb with
  | none => simp [VectorStoreService.query, VectorStoreService.search, hdb]
  | some db =>
    have hq : VectorStoreService.query env s t k ≠ .error .notInitialized := by
      simp only [VectorStoreService.query, hdb]
      cases answer_query env db t <;> simp
    have hs : VectorStoreService.search env s t k ≠ .error .notInitialized := by
      simp only [VectorStoreService.search, hdb]
      cases env.similaritySearch db t k <;> simp
    refine ⟨⟨fun h => absurd h hq, fun h => absurd h (by simp [hdb])⟩,
            ⟨fun h => absurd h hs, fun h => absurd h (by simp [hdb])⟩⟩

/-- C5: `DocumentService.process_documents` flips every registry record to
`processed=true` (and takes no vector-store state at all); consequently on
the `POST /api/documents/process` path, when loading and splitting succeed
with a non-empty chunk list but index construction raises, the route
answers 500 "Failed to rebuild vector store" with every record's
`processed` flag already `true` (not rolled back) and the vector-store
state exactly as before (the prior handle is not discarded). -/
theorem C5_process_flags_not_rolled_back :
    ∀ (env : Env) (d : DocState) (v : VectorStoreState),
      (∀ counts d', DocumentService.process_documents env d = .ok (counts, d') →
        ∀ p ∈ d'.docs, p.2.processed = true) ∧
      (∀ (text : String) (chunks : List String) (msg : String),
        env.loadPdfs = .ok text →
        env.splitText text = .ok chunks →
        chunks ≠ [] →
        env.fromDocuments chunks = .error msg →
        Documents.process_documents env d v =
          (.error ⟨500, "Failed to rebuild vector store"⟩,
            { d with docs := markAllProcessed d.docs }, v) ∧
        ∀ p ∈ markAllProcessed d.docs, p.2.processed = true) := by
  intro env d v
  constructor
  · intro counts d' h
    cases hl : env.loadPdfs with
    | error e => simp [DocumentService.process_documents, hl] at h
    | ok text =>
      cases hs : env.splitText text with
      | error e => simp [DocumentService.process_documents, hl, hs] at h
      | ok chunks =>
        simp only [DocumentService.process_documents, hl, hs,
          Except.ok.injEq, Prod.mk.injEq] at h
        intro p hp
        rw [← h.2] at hp
        exact mem_markAllProcessed hp
  · intro text chunks msg hl hs hne hfd
    have hcreate : create_vectorstore env chunks
        = .error ("Vector store creation failed: " ++ msg) := by
      cases chunks with
      | nil => exact absurd rfl hne
      | cons c cs => simp [create_vectorstore, hfd]
    have hrebuild : VectorStoreService.rebuild env chunks v = (false, v) := by
      simp [VectorStoreService.rebuild, hcreate]
    have hlen : ¬ chunks.length = 0 := by
      simpa [List.length_eq_zero] using hne
    refine ⟨?_, fun p hp => mem_markAllProcessed hp⟩
    simp [Documents.process_documents, DocumentService.process_documents,
      hl, hs, hlen, hrebuild]

/-- Fixture for C5: a one-record registry, a loaded index, and an
environment where loading and splitting succeed with one chunk but index
construction raises. -/
def C5Env : Env :=
  { fromDocuments := fun _ => .error "emb down",
    similaritySearch := fun _ _ _ => .ok [],
    generateContent := fun p => .ok p,
    loadPdfs := .ok "T",
    splitText := fun _ => .ok ["c1"] }

/-- Fixture for C5: one unprocessed record. -/
def C5Doc : DocState := ⟨[("d1", ⟨"d1", "a.pdf", 3, some 1, 0, false⟩)], []⟩

/-- Fixture for C5: the previously loaded index handle. -/
def C5V : VectorStoreState := ⟨some ⟨["old"]⟩⟩

/-- Witness for C5 at the concrete fixtures: the 500 response, the flipped
flags and the untouched vector-store state. -/
theorem C5_process_witness :
    Documents.process_documents C5Env C5Doc C5V =
      (.error ⟨500, "Failed to rebuild vector store"⟩,
        { C5Doc with docs := markAllProcessed C5Doc.docs }, C5V) ∧
    ∀ p ∈ markAllProcessed C5Doc.docs, p.2.processed = true :=
  (C5_process_flags_not_rolled_back C5Env C5Doc C5V).2 "T" ["c1"] "emb down"
    rfl rfl (by decide) rfl

/-- C6: the upload route rejects any filename whose lower-cased form does
not end in `.pdf` with a 400 before reading the body or touching the
service, so the registry (records and written files alike) is unchanged. -/
theorem C6_non_pdf_upload_rejected :
    ∀ (filename : String) (readBody : Except String Nat) (doc_id : String)
      (page_count : Option Nat) (now : Nat) (s : DocState),
      endsWithPdfCI filename = false →
      Documents.upload_document filename readBody doc_id page_count now s =
        (.error ⟨400, "Only PDF files are allowed"⟩, s) := by
  intro filename readBody doc_id page_count now s h
  simp [Documents.upload_document, h]

/-- Witness for C6: uploading `notes.txt` into an empty registry yields the
400 and leaves the registry empty. -/
theorem C6_non_pdf_upload_witness :
    Documents.upload_document "notes.txt" (.ok 5) "id1" none 0 ⟨[], []⟩ =
      (.error ⟨400, "Only PDF files are allowed"⟩, ⟨[], []⟩) :=
  C6_non_pdf_upload_rejected "notes.txt" (.ok 5) "id1" none 0 ⟨[], []⟩ (by decide)

/-- C7: for a non-empty bulk upload, the route raises a 500 exactly when
every file failed (wrong extension or raised exception); otherwise it
returns precisely the successful files' metadata, in order, silently
omitting the failures. -/
theorem C7_bulk_upload_all_or_successes :
    ∀ files : List UFile, files ≠ [] →
      ((∀ f ∈ files, Documents.fileFailed f = true) ↔
        ∃ msg, Documents.bulk_upload_documents files = .error ⟨500, msg⟩) ∧
      ((¬ ∀ f ∈ files, Documents.fileFailed f = true) →
        Documents.bulk_upload_documents files
          = .ok (Documents.bulkSuccesses files)) := by
  intro files hne
  have hfst := bulkCollect_fst files
  have hlen := bulkCollect_length files
  have hok : (¬ ∀ f ∈ files, Documents.fileFailed f = true) →
      Documents.bulk_upload_documents files
        = .ok (Documents.bulkSuccesses files) := by
    intro hnall
    have hds : (Documents.bulkCollect files).1 ≠ [] := by
      rw [hfst]
      intro h0
      exact hnall ((bulkSuccesses_nil_iff files).1 h0)
    simp only [Documents.bulk_upload_documents]
    rw [if_neg (fun hc => hds hc.2), hfst]
  refine ⟨⟨?_, ?_⟩, hok⟩
  · intro hall
    have hds : (Documents.bulkCollect files).1 = [] :=
      hfst.trans ((bulkSuccesses_nil_iff files).2 hall)
    have hes : (Documents.bulkCollect files).2 ≠ [] := by
      intro he
      have h0 : files.length = 0 := by
        rw [← hlen, hds, he]
        rfl
      exact hne (List.length_eq_zero.1 h0)
    refine ⟨"All uploads failed: "
      ++ String.intercalate ", " (Documents.bulkCollect files).2, ?_⟩
    simp only [Documents.bulk_upload_documents]
    rw [if_pos ⟨hes, hds⟩]
  · rintro ⟨msg, hmsg⟩
    by_contra hnall
    rw [hok hnall] at hmsg
    exact Except.noConfusion hmsg

/-- Fixtures for C7: the metadata of the two valid PDFs. -/
def C7m1 : DocMeta := ⟨"i1", "a.pdf", 1, none, 0, false⟩

/-- Second successful metadata record for C7. -/
def C7m2 : DocMeta := ⟨"i2", "b.pdf", 2, none, 0, false⟩

/-- Fixture for C7: two valid PDFs and one `.txt` file. -/
def C7Files : List UFile :=
  [⟨"a.pdf", .ok C7m1⟩, ⟨"b.pdf", .ok C7m2⟩,
   ⟨"c.txt", .ok ⟨"i3", "c.txt", 3, none, 0, false⟩⟩]

/-- Witness for C7: 2 valid PDFs plus 1 `.txt` file yield exactly the 2
PDF metadata records with no 500. -/
theorem C7_bulk_upload_witness :
    Documents.bulk_upload_documents C7Files = .ok [C7m1, C7m2] :=
  ((C7_bulk_upload_all_or_successes C7Files (by decide)).2 (by decide)).trans
    (by decide)

/-- C8: right after `create_session` the session reads back with
`message_count = 0` and both timestamps at creation time; after one
`add_message` (at a strictly later clock reading) the flag is `true`, the
record reads back with `message_count = 1`, the appended message, and an
`updated_at` that strictly increased; `add_message` on an unknown id is a
pure no-op returning `false`. -/
theorem C8_session_lifecycle :
    ∀ (s : ChatState) (sid role content : String) (t1 t2 : Nat),
      ChatSessionService.get_session sid
          (ChatSessionService.create_session sid t1 s).2 =
        some ⟨sid, t1, t1, [], 0⟩ ∧
      (t1 < t2 →
        (ChatSessionService.add_message sid role content t2
            (ChatSessionService.create_session sid t1 s).2).1 = true ∧
        ChatSessionService.get_session sid
            (ChatSessionService.add_message sid role content t2
              (ChatSessionService.create_session sid t1 s).2).2 =
          some ⟨sid, t1, t2, [⟨role, content, t2⟩], 1⟩ ∧
        (∀ old new : Session,
          ChatSessionService.get_session sid
              (ChatSessionService.create_session sid t1 s).2 = some old →
          ChatSessionService.get_session sid
              (ChatSessionService.add_message sid role content t2
                (ChatSessionService.create_session sid t1 s).2).2 = some new →
          old.updated_at < new.updated_at)) ∧
      (ChatSessionService.get_session sid s = none →
        ChatSessionService.add_message sid role content t2 s = (false, s)) := by
  intro s sid role content t1 t2
  have hget : ChatSessionService.get_session sid
      (ChatSessionService.create_session sid t1 s).2 = some ⟨sid, t1, t1, [], 0⟩ :=
    dictLookup_dictInsert_self sid _ s.sessions
  have hl0 : dictLookup sid
      (ChatSessionService.create_session sid t1 s).2.sessions =
        some ⟨sid, t1, t1, [], 0⟩ := hget
  have hafter : ChatSessionService.get_session sid
      (ChatSessionService.add_message sid role content t2
        (ChatSessionService.create_session sid t1 s).2).2 =
      some ⟨sid, t1, t2, [⟨role, content, t2⟩], 1⟩ := by
    simp only [ChatSessionService.add_message, hl0]
    exact dictLookup_dictInsert_self sid _ _
  refine ⟨hget, fun hlt => ⟨?_, hafter, ?_⟩, ?_⟩
  · simp only [ChatSessionService.add_message, hl0]
  · intro old new hold hnew
    rw [hget, Option.some.injEq] at hold
    rw [hafter, Option.some.injEq] at hnew
    rw [← hold, ← hnew]
    exact hlt
  · intro hnone
    have hn : dictLookup sid s.sessions = none := hnone
    simp only [ChatSessionService.add_message, hn]

/-- Witness for C8 on a fresh empty registry: create at time 0, read back
count 0, add at time 1, read back count 1 with `updated_at` 1; `add_message`
on the unknown id `"ghost"` is a no-op returning `false`. -/
theorem C8_session_witness :
    ChatSessionService.get_session "s1"
        (ChatSessionService.create_session "s1" 0 ⟨[]⟩).2 =
      some ⟨"s1", 0, 0, [], 0⟩ ∧
    (ChatSessionService.add_message "s1" "user" "hi" 1
        (ChatSessionService.create_session "s1" 0 ⟨[]⟩).2).1 = true ∧
    ChatSessionService.get_session "s1"
        (ChatSessionService.add_message "s1" "user" "hi" 1
          (ChatSessionService.create_session "s1" 0 ⟨[]⟩).2).2 =
      some ⟨"s1", 0, 1, [⟨"user", "hi", 1⟩], 1⟩ ∧
    ChatSessionService.add_message "ghost" "user" "hi" 1 ⟨[]⟩ = (false, ⟨[]⟩) :=
  ⟨(C8_session_lifecycle ⟨[]⟩ "s1" "user" "hi" 0 1).1,
   ((C8_session_lifecycle ⟨[]⟩ "s1" "user" "hi" 0 1).2.1 (by decide)).1,
   ((C8_session_lifecycle ⟨[]⟩ "s1" "user" "hi" 0 1).2.1 (by decide)).2.1,
   (C8_session_lifecycle ⟨[]⟩ "ghost" "user" "hi" 0 1).2.2 rfl⟩

/-- C9: `POST /api/search` and `POST /api/search/similar` run the identical
retrieval `vector_service.search(query, k)` over the same state: they
succeed with exactly the same response body, and fail together (their 500
details differ only in the `"Search failed"` / `"Similarity search failed"`
prefix). -/
theorem C9_search_endpoints_identical :
    ∀ (env : Env) (v : VectorStoreState) (q : String) (k : Nat),
      (∀ r : SearchResponse,
        Search.search_documents env v q k = .ok r ↔
          Search.find_similar env v q k = .ok r) ∧
      ((∃ e, Search.search_documents env v q k = .error e) ↔
        (∃ e, Search.find_similar env v q k = .error e)) := by
  intro env v q k
  cases h : VectorStoreService.search env v q k with
  | ok results =>
    exact ⟨fun r => by simp [Search.search_documents, Search.find_similar, h],
      by simp [Search.search_documents, Search.find_similar, h]⟩
  | error e =>
    exact ⟨fun r => by simp [Search.search_documents, Search.find_similar, h],
      by simp [Search.search_documents, Search.find_similar, h]⟩

/-- The chat-registry invariant: every stored session's `message_count`
equals the length of its message list. -/
def sessionsWF (s : ChatState) : Prop :=
  ∀ p ∈ s.sessions, p.2.message_count = p.2.messages.length

instance (s : ChatState) : Decidable (sessionsWF s) := by
  unfold sessionsWF
  exact List.decidableBAll _ _

/-- C10: `message_count = messages.length` holds in every reachable
registry state: `create_session`, `add_message` and `delete_session` each
preserve it from any state satisfying it, and the read-only operations
(`get_session`, `get_history`, `list_sessions`) take the state unchanged —
in particular every record `get_session` returns satisfies the equality. -/
theorem C10_message_count_invariant :
    ∀ s : ChatState, sessionsWF s →
      (∀ sid now, sessionsWF (ChatSessionService.create_session sid now s).2) ∧
      (∀ sid role content now,
        sessionsWF (ChatSessionService.add_message sid role content now s).2) ∧
      (∀ sid, sessionsWF (ChatSessionService.delete_session sid s).2) ∧
      (∀ sid sess, ChatSessionService.get_session sid s = some sess →
        sess.message_count = sess.messages.length) := by
  intro s hs
  refine ⟨?_, ?_, ?_, ?_⟩
  · intro sid now p hp
    simp only [ChatSessionService.create_session] at hp
    rcases mem_dictInsert hp with h | h
    · rw [h]
      rfl
    · exact hs p h
  · intro sid role content now p hp
    cases hl : dictLookup sid s.sessions with
    | none =>
      simp only [ChatSessionService.add_message, hl] at hp
      exact hs p hp
    | some sess =>
      simp only [ChatSessionService.add_message, hl] at hp
      rcases mem_dictInsert hp with h | h
      · have hinv := hs (sid, sess) (dictLookup_mem hl)
        rw [h]
        simp only [List.length_append, List.length_cons, List.length_nil]
        simp at hinv
        simp [hinv]
      · exact hs p h
  · intro sid p hp
    cases hl : dictLookup sid s.sessions with
    | none =>
      simp only [ChatSessionService.delete_session, hl] at hp
      exact hs p hp
    | some sess =>
      simp only [ChatSessionService.delete_session, hl] at hp
      exact hs p (mem_dictErase hp)
  · intro sid sess h
    exact hs (sid, sess) (dictLookup_mem h)

/-- Fixture for C10: a registry holding one empty session. -/
def C10State : ChatState := ⟨[("a", ⟨"a", 0, 0, [], 0⟩)]⟩

/-- Witness for C10 at a concrete well-formed registry: the invariant holds
and survives an append, a creation and a deletion. -/
theorem C10_invariant_witness :
    sessionsWF C10State ∧
    sessionsWF (ChatSessionService.create_session "b" 2 C10State).2 ∧
    sessionsWF (ChatSessionService.add_message "a" "user" "x" 1 C10State).2 ∧
    sessionsWF (ChatSessionService.delete_session "a" C10State).2 :=
  ⟨by decide,
   (C10_message_count_invariant C10State (by decide)).1 "b" 2,
   (C10_message_count_invariant C10State (by decide)).2.1 "a" "user" "x" 1,
   (C10_message_count_invariant C10State (by decide)).2.2.1 "a"⟩

end Querio
